import Mathlib

/-!
Shallow embedding of the request-tracker lab (Go backend: HTTP API server and
SQS worker, `backend/main.go` for both processes) together with proofs about
its status-change event pipeline.

The DynamoDB table is modelled as an association list from partition key to a
record holding the attributes the two processes read and write.  DynamoDB
calls that can fail for infrastructure reasons take an explicit reachability
flag; a `ConditionalCheckFailedException` is modelled by the update function
returning `none`.  SQS message bodies are modelled as `Option JsonVal`
(`none` = the body is not valid JSON), and Go's `json.Unmarshal` into
`StatusChangedEvent` is embedded including its treatment of absent fields
(zero value, no error), `null` values (field left unchanged, no error),
wrong-typed values (error), unknown fields (ignored) and case-insensitive
key matching.
-/

namespace RequestTracker

/-- JSON values, as far as the worker's message parsing distinguishes them. -/
inductive JsonVal where
  | jnull
  | jbool (b : Bool)
  | jnum (n : Int)
  | jstr (s : String)
  | jarr (elems : List JsonVal)
  | jobj (fields : List (String × JsonVal))

/-- The queue message payload (struct `StatusChangedEvent` in both processes). -/
structure StatusChangedEvent where
  eventId : String
  requestId : String
  newStatus : String
  changedAt : String
deriving DecidableEq, Repr

/-- One entry of the `statusHistory` list the worker appends
(`historyEntry` map in `applyStatusEvent`). -/
structure HistoryEntry where
  eventId : String
  newStatus : String
  changedAt : String
  handledAt : String
deriving DecidableEq, Repr

/-- One item of the `Requests` table.  `statusUpdatedAt`, `notifiedAt` and
`lastEventId` are absent until the transition path / worker first writes
them; `statusHistory` absent behaves as the empty list thanks to the
`if_not_exists(statusHistory, :empty)` in the worker's update expression,
so it is modelled as a plain list. -/
structure RequestRecord where
  title : String
  status : String
  createdAt : String
  requesterToken : String
  statusUpdatedAt : Option String
  notifiedAt : Option String
  lastEventId : Option String
  statusHistory : List HistoryEntry
deriving DecidableEq, Repr

/-- The `Requests` table: partition key to item. -/
abbrev Store := List (String × RequestRecord)

def lookupStore : Store → String → Option RequestRecord
  | [], _ => none
  | (k, r) :: rest, pk => if k = pk then some r else lookupStore rest pk

def putStore : Store → String → RequestRecord → Store
  | [], pk, r => [(pk, r)]
  | (k, r0) :: rest, pk, r =>
      if k = pk then (k, r) :: rest else (k, r0) :: putStore rest pk r

/-- The `PutItem` of `POST /requests` (server lines 183-194): fresh item,
status `PENDING`, the requester token stored alongside. -/
def createRequestPut (s : Store) (id title createdAt requesterToken : String) : Store :=
  putStore s ("REQ#" ++ id)
    { title := title, status := "PENDING", createdAt := createdAt,
      requesterToken := requesterToken, statusUpdatedAt := none,
      notifiedAt := none, lastEventId := none, statusHistory := [] }

/-- The worker's conditional `UpdateItem` (lines 509-527).  Condition:
`attribute_exists(PK) AND (attribute_not_exists(lastEventId) OR
lastEventId <> :eid)`.  `none` models a
`ConditionalCheckFailedException` (record missing, or this event already
the last applied); `some s2` is the updated table: `notifiedAt` and
`lastEventId` set, one entry appended to `statusHistory`. -/
def applyUpdateItem (s : Store) (ev : StatusChangedEvent) (now : String) : Option Store :=
  let pk := "REQ#" ++ ev.requestId
  match lookupStore s pk with
  | none => none
  | some r =>
      if r.lastEventId = some ev.eventId then none
      else some (putStore s pk
        { r with notifiedAt := some now, lastEventId := some ev.eventId,
                 statusHistory := r.statusHistory ++
                   [⟨ev.eventId, ev.newStatus, ev.changedAt, now⟩] })

/-- Go `applyStatusEvent` on a reachable store: a conditional-check failure is
swallowed (the function returns nil and the table is unchanged); a successful
update yields the new table.  Either way the Go function reports success. -/
def applyStatusEvent (s : Store) (ev : StatusChangedEvent) (now : String) : Store :=
  match applyUpdateItem s ev now with
  | some s2 => s2
  | none => s

/-- Result of calling `applyStatusEvent` over the network: `ok` is Go's
nil error (covering both the applied and the condition-failed case),
`err` a non-conditional error such as the store being unreachable. -/
inductive ApplyCall where
  | ok (s : Store)
  | err
deriving DecidableEq, Repr

def applyStatusEventCall (reachable : Bool) (s : Store) (ev : StatusChangedEvent)
    (now : String) : ApplyCall :=
  if reachable then .ok (applyStatusEvent s ev now) else .err

/-- Go `json.Unmarshal` of one JSON value into a string struct field:
string values decode, `null` leaves the existing value, anything else is an
`UnmarshalTypeError`. -/
def jsonFieldString : JsonVal → Option (Option String)
  | .jstr s => some (some s)
  | .jnull => some none
  | _ => none

def zeroEvent : StatusChangedEvent := ⟨"", "", "", ""⟩

/-- ASCII lower-casing of one code point (`A`-`Z` to `a`-`z`). -/
def lowerCodepoint (n : Nat) : Nat := if 65 ≤ n ∧ n ≤ 90 then n + 32 else n

/-- Go's encoding/json key matching: an exact match on the JSON tag, or a
case-insensitive one. -/
def keyMatches (k tag : String) : Bool :=
  k == tag ||
    k.data.map (fun c => lowerCodepoint c.toNat) ==
      tag.data.map (fun c => lowerCodepoint c.toNat)

/-- Decoding one object member into the event struct.  Keys matching no JSON
tag of the struct are ignored (unknown fields are tolerated). -/
def setEventField (ev : StatusChangedEvent) (k : String) (v : JsonVal) :
    Option StatusChangedEvent :=
  if keyMatches k "eventId" then
    (jsonFieldString v).map (fun o => { ev with eventId := o.getD ev.eventId })
  else if keyMatches k "requestId" then
    (jsonFieldString v).map (fun o => { ev with requestId := o.getD ev.requestId })
  else if keyMatches k "newStatus" then
    (jsonFieldString v).map (fun o => { ev with newStatus := o.getD ev.newStatus })
  else if keyMatches k "changedAt" then
    (jsonFieldString v).map (fun o => { ev with changedAt := o.getD ev.changedAt })
  else some ev

def unmarshalFields : List (String × JsonVal) → StatusChangedEvent →
    Option StatusChangedEvent
  | [], ev => some ev
  | (k, v) :: rest, ev =>
      match setEventField ev k v with
      | none => none
      | some ev2 => unmarshalFields rest ev2

/-- Go `json.Unmarshal([]byte(*m.Body), &ev)` (worker line 464): `none` input
means the body is not valid JSON.  An object decodes member by member with
absent fields left at their zero value; top-level `null` succeeds with the
zero value; any other top-level value is an error. -/
def unmarshalEvent : Option JsonVal → Option StatusChangedEvent
  | none => none
  | some .jnull => some zeroEvent
  | some (.jobj fields) => unmarshalFields fields zeroEvent
  | some _ => none

/-- Net effect of the worker loop on one received message
(worker lines 458-492): resulting table and whether the message was
acknowledged (deleted from the queue). -/
structure MessageStep where
  store : Store
  acked : Bool
deriving DecidableEq, Repr

/-- One message of the worker loop: parse (malformed bodies are deleted and
dropped without touching the store), apply, and delete on a nil apply
result; a failed apply leaves the message un-acknowledged. -/
def processMessage (reachable : Bool) (s : Store) (body : Option JsonVal)
    (now : String) : MessageStep :=
  match unmarshalEvent body with
  | none => ⟨s, true⟩
  | some ev =>
      match applyStatusEventCall reachable s ev now with
      | .ok s2 => ⟨s2, true⟩
      | .err => ⟨s, false⟩

/-- `switch in.Status` whitelist of the PATCH handler (server lines 279-284). -/
def validStatus (st : String) : Bool :=
  st = "PENDING" || st = "IN_PROGRESS" || st = "DONE" || st = "REJECTED"

/-- The admin secret the PATCH handler compares against (server lines
265-268): the `ADMIN_TOKEN` environment value, falling back to the literal
`dev-admin-token` when that value is empty (which is also what an unset
variable reads as). -/
def adminExpected (adminTokenEnv : String) : String :=
  if adminTokenEnv = "" then "dev-admin-token" else adminTokenEnv

structure PatchStatusOutput where
  requestId : String
  newStatus : String
  changedAt : String
  eventId : String
deriving DecidableEq, Repr

inductive PatchResult where
  | ok (out : PatchStatusOutput)
  | unauthorized
  | badRequest
  | notFound
  | serverError
deriving DecidableEq, Repr

structure PatchOutcome where
  store : Store
  queue : List StatusChangedEvent
  result : PatchResult
deriving DecidableEq, Repr

/-- The `PATCH /requests/{id}/status` handler (server lines 264-340).
`changedAt` and `eventID` stand for the timestamp and fresh UUID the handler
generates; `storeReachable` and `sendOk` model infrastructure failure of the
`UpdateItem` and `SendMessage` calls.  The update's
`attribute_exists(PK)` condition failing is the 404 branch; a send failure
reports a server error while the already-performed store update stays. -/
def patchStatusHandler (adminTokenEnv authHeader id status changedAt eventID : String)
    (storeReachable sendOk : Bool) (s : Store) (q : List StatusChangedEvent) :
    PatchOutcome :=
  if authHeader = "Bearer " ++ adminExpected adminTokenEnv then
    if validStatus status then
      if storeReachable then
        match lookupStore s ("REQ#" ++ id) with
        | none => ⟨s, q, .notFound⟩
        | some r =>
            let s2 := putStore s ("REQ#" ++ id)
              { r with status := status, statusUpdatedAt := some changedAt }
            if sendOk then
              ⟨s2, q ++ [⟨eventID, id, status, changedAt⟩],
               .ok ⟨id, status, changedAt, eventID⟩⟩
            else ⟨s2, q, .serverError⟩
      else ⟨s, q, .serverError⟩
    else ⟨s, q, .badRequest⟩
  else ⟨s, q, .unauthorized⟩

structure GetRequestOutput where
  requestId : String
  title : String
  status : String
  createdAt : String
deriving DecidableEq, Repr

inductive GetResult where
  | ok (out : GetRequestOutput)
  | badRequest
  | notFound
  | forbidden
deriving DecidableEq, Repr

/-- Result of the read path plus whether a `GetItem` was issued. -/
structure GetOutcome where
  result : GetResult
  storeRead : Bool
deriving DecidableEq, Repr

/-- The `GET /requests/{id}?t=...` handler (server lines 218-261): an empty
token is rejected before the store is read; otherwise the item is fetched,
absence is 404, a token mismatch is 403, and a match returns the item. -/
def getRequestHandler (id t : String) (s : Store) : GetOutcome :=
  if t = "" then ⟨.badRequest, false⟩
  else
    match lookupStore s ("REQ#" ++ id) with
    | none => ⟨.notFound, true⟩
    | some r =>
        if r.requesterToken = t then ⟨.ok ⟨id, r.title, r.status, r.createdAt⟩, true⟩
        else ⟨.forbidden, true⟩

/-- The mutating operations that can touch a record after its creation:
a status transition through the PATCH handler, or the worker applying an
event. -/
inductive Op where
  | patch (adminTokenEnv authHeader id status changedAt eventID : String)
      (storeReachable sendOk : Bool)
  | applyEvent (ev : StatusChangedEvent) (now : String)

def runOp (sq : Store × List StatusChangedEvent) : Op → Store × List StatusChangedEvent
  | .patch a h i st ca e reach ok =>
      let o := patchStatusHandler a h i st ca e reach ok sq.1 sq.2
      (o.store, o.queue)
  | .applyEvent ev now => (applyStatusEvent sq.1 ev now, sq.2)

def runOps (ops : List Op) (sq : Store × List StatusChangedEvent) :
    Store × List StatusChangedEvent :=
  ops.foldl runOp sq

/-- Delivering the same event N times in a row to the worker's apply step. -/
def applyN (s : Store) (ev : StatusChangedEvent) (nows : List String) : Store :=
  nows.foldl (fun st n => applyStatusEvent st ev n) s

/-- A concrete freshly-created record, as `POST /requests` stores it, used to
evaluate theorems at concrete inputs. -/
def sampleRecord : RequestRecord :=
  { title := "t1", status := "PENDING", createdAt := "c0",
    requesterToken := "tok", statusUpdatedAt := none, notifiedAt := none,
    lastEventId := none, statusHistory := [] }

def sampleStore : Store := [("REQ#r1", sampleRecord)]

theorem lookupStore_putStore (s : Store) (pk pk' : String) (r : RequestRecord) :
    lookupStore (putStore s pk r) pk' =
      if pk = pk' then some r else lookupStore s pk' := by
  induction s with
  | nil =>
      by_cases h : pk = pk' <;> simp [putStore, lookupStore, h]
  | cons hd tl ih =>
      obtain ⟨k, r0⟩ := hd
      by_cases hk : k = pk
      · subst hk
        by_cases h2 : k = pk' <;> simp [putStore, lookupStore, h2]
      · by_cases h2 : k = pk'
        · subst h2
          have : ¬ pk = k := fun h => hk h.symm
          simp [putStore, lookupStore, hk, this]
        · simp [putStore, lookupStore, hk, h2, ih]

theorem applyN_cons (s : Store) (ev : StatusChangedEvent) (n : String)
    (rest : List String) :
    applyN s ev (n :: rest) = applyN (applyStatusEvent s ev n) ev rest := rfl

theorem applyStatusEvent_applied (s : Store) (ev : StatusChangedEvent) (now : String)
    (r : RequestRecord) (hr : lookupStore s ("REQ#" ++ ev.requestId) = some r)
    (hl : r.lastEventId ≠ some ev.eventId) :
    applyStatusEvent s ev now = putStore s ("REQ#" ++ ev.requestId)
      { r with notifiedAt := some now, lastEventId := some ev.eventId,
               statusHistory := r.statusHistory ++
                 [⟨ev.eventId, ev.newStatus, ev.changedAt, now⟩] } := by
  simp [applyStatusEvent, applyUpdateItem, hr, hl]

theorem applyStatusEvent_noop (s : Store) (ev : StatusChangedEvent) (now : String)
    (r : RequestRecord) (hr : lookupStore s ("REQ#" ++ ev.requestId) = some r)
    (hl : r.lastEventId = some ev.eventId) :
    applyStatusEvent s ev now = s := by
  simp [applyStatusEvent, applyUpdateItem, hr, hl]

theorem applyN_noop (ev : StatusChangedEvent) (nows : List String) :
    ∀ (s : Store) (r : RequestRecord),
      lookupStore s ("REQ#" ++ ev.requestId) = some r →
      r.lastEventId = some ev.eventId →
      applyN s ev nows = s := by
  induction nows with
  | nil => intro s r _ _; rfl
  | cons n rest ih =>
      intro s r hr hl
      rw [applyN_cons, applyStatusEvent_noop s ev n r hr hl]
      exact ih s r hr hl

/-- C1.  Idempotent application: delivering the same `StatusChangedEvent` to
the worker's apply step N ≥ 1 times (duplicate delivery or replay) collapses
to a single application — one history entry is appended and `notifiedAt` /
`lastEventId` are written once, at the first delivery; when the request's
history starts empty its length after the N deliveries is 1. -/
theorem idempotent_application (s : Store) (ev : StatusChangedEvent)
    (r : RequestRecord) (now : String) (rest : List String)
    (hr : lookupStore s ("REQ#" ++ ev.requestId) = some r)
    (hl : r.lastEventId ≠ some ev.eventId) :
    applyN s ev (now :: rest) = applyStatusEvent s ev now ∧
    lookupStore (applyN s ev (now :: rest)) ("REQ#" ++ ev.requestId) =
      some { r with notifiedAt := some now, lastEventId := some ev.eventId,
                    statusHistory := r.statusHistory ++
                      [⟨ev.eventId, ev.newStatus, ev.changedAt, now⟩] } ∧
    (r.statusHistory = [] →
      (lookupStore (applyN s ev (now :: rest)) ("REQ#" ++ ev.requestId)).map
        (fun r2 => r2.statusHistory.length) = some 1) := by
  have h1 := applyStatusEvent_applied s ev now r hr hl
  have hlook : lookupStore (applyStatusEvent s ev now) ("REQ#" ++ ev.requestId) =
      some { r with notifiedAt := some now, lastEventId := some ev.eventId,
                    statusHistory := r.statusHistory ++
                      [⟨ev.eventId, ev.newStatus, ev.changedAt, now⟩] } := by
    rw [h1, lookupStore_putStore]
    simp
  have h2 : applyN s ev (now :: rest) = applyStatusEvent s ev now := by
    rw [applyN_cons]
    exact applyN_noop ev rest _ _ hlook rfl
  refine ⟨h2, ?_, ?_⟩
  · rw [h2, hlook]
  · intro hh
    rw [h2, hlook]
    simp [hh]

/-- C1 witness: a fresh request receives the same event three times; the
resulting history has length 1. -/
theorem idempotent_application_witness :
    (lookupStore
        (applyN (createRequestPut [] "r1" "t1" "c0" "tok")
          ⟨"e1", "r1", "DONE", "ca"⟩ ["n1", "n2", "n3"])
        ("REQ#" ++ "r1")).map (fun r2 => r2.statusHistory.length) = some 1 :=
  (idempotent_application (createRequestPut [] "r1" "t1" "c0" "tok")
      ⟨"e1", "r1", "DONE", "ca"⟩ sampleRecord
      "n1" ["n2", "n3"] (by decide) (by decide)).2.2 rfl

/-- C2.  Worker acknowledgment policy: a well-formed message is always
acknowledged when the store call goes through — the Go apply step returns nil
both when the update applied and when the conditional check failed (record
missing or event already the last applied), so both outcomes delete the
message; when the store is unreachable the message is left un-acknowledged
and the table untouched, so the visibility timeout can redeliver it. -/
theorem worker_ack_policy (s : Store) (body : Option JsonVal) (now : String)
    (ev : StatusChangedEvent) (h : unmarshalEvent body = some ev) :
    processMessage true s body now = ⟨applyStatusEvent s ev now, true⟩ ∧
    processMessage false s body now = ⟨s, false⟩ := by
  constructor <;> simp [processMessage, h, applyStatusEventCall]

/-- C2 witness at a concrete well-formed message whose conditional check
fails (no such record): acknowledged anyway when reachable, kept when not. -/
theorem worker_ack_policy_witness :
    processMessage true [] (some (.jobj [("eventId", .jstr "e1")])) "n1" =
      ⟨applyStatusEvent [] ⟨"e1", "", "", ""⟩ "n1", true⟩ ∧
    processMessage false [] (some (.jobj [("eventId", .jstr "e1")])) "n1" =
      ⟨[], false⟩ :=
  worker_ack_policy [] (some (.jobj [("eventId", .jstr "e1")])) "n1"
    ⟨"e1", "", "", ""⟩ (by decide)

/-- C3 counterexample: a message missing the required fields `newStatus` and
`changedAt` is NOT discarded as malformed — Go's `json.Unmarshal` fills
absent fields with zero values and reports no error, so the worker applies
the event to the store (the request's history grows) before acknowledging. -/
theorem malformed_discard_cex :
    unmarshalEvent (some (.jobj [("eventId", .jstr "e1"), ("requestId", .jstr "r1")])) =
      some ⟨"e1", "r1", "", ""⟩ ∧
    (processMessage true (createRequestPut [] "r1" "t1" "c0" "tok")
        (some (.jobj [("eventId", .jstr "e1"), ("requestId", .jstr "r1")])) "n1").acked =
      true ∧
    (lookupStore (processMessage true (createRequestPut [] "r1" "t1" "c0" "tok")
          (some (.jobj [("eventId", .jstr "e1"), ("requestId", .jstr "r1")])) "n1").store
        ("REQ#" ++ "r1")).map (fun r2 => r2.statusHistory.length) = some 1 := by
  refine ⟨by decide, by decide, by decide⟩

/-- C3 amended: a queue message whose body fails Go's `json.Unmarshal` into
`StatusChangedEvent` — invalid JSON, a top-level value that is neither an
object nor `null`, or a required field present with a wrong-typed value — is
immediately acknowledged and dropped without touching the store; a message
merely missing required fields decodes to zero values and is processed
normally. -/
theorem malformed_discard (reachable : Bool) (s : Store) (body : Option JsonVal)
    (now : String) (h : unmarshalEvent body = none) :
    processMessage reachable s body now = ⟨s, true⟩ := by
  simp [processMessage, h]

/-- C3 amended witness: a message whose `eventId` field holds a number is
acknowledged and dropped with the store untouched. -/
theorem malformed_discard_witness :
    processMessage true sampleStore (some (.jobj [("eventId", .jnum 5)])) "n1" =
      ⟨sampleStore, true⟩ :=
  malformed_discard true sampleStore (some (.jobj [("eventId", .jnum 5)])) "n1"
    (by decide)

/-- C4.  Partial failure window: when the status update succeeds but the
queue send fails, the caller is told the operation failed (server error),
no event is enqueued, yet the store already holds the new status and
`statusUpdatedAt` — the store state equals the one a fully successful
transition produces, and no rollback happens. -/
theorem partial_failure_window (adminTokenEnv authHeader id st ca eid : String)
    (s : Store) (q : List StatusChangedEvent) (r : RequestRecord)
    (hauth : authHeader = "Bearer " ++ adminExpected adminTokenEnv)
    (hst : validStatus st = true)
    (hr : lookupStore s ("REQ#" ++ id) = some r) :
    (patchStatusHandler adminTokenEnv authHeader id st ca eid true false s q).result =
      PatchResult.serverError ∧
    (patchStatusHandler adminTokenEnv authHeader id st ca eid true false s q).store =
      (patchStatusHandler adminTokenEnv authHeader id st ca eid true true s q).store ∧
    (patchStatusHandler adminTokenEnv authHeader id st ca eid true false s q).queue = q ∧
    lookupStore
        (patchStatusHandler adminTokenEnv authHeader id st ca eid true false s q).store
        ("REQ#" ++ id) =
      some { r with status := st, statusUpdatedAt := some ca } := by
  subst hauth
  refine ⟨?_, ?_, ?_, ?_⟩ <;>
    simp [patchStatusHandler, hst, hr, lookupStore_putStore]

/-- C4 witness: a DONE transition on a fresh request with the send failing. -/
theorem partial_failure_window_witness :
    (patchStatusHandler "" "Bearer dev-admin-token" "r1" "DONE" "c1" "e1"
        true false sampleStore []).result = PatchResult.serverError ∧
    (patchStatusHandler "" "Bearer dev-admin-token" "r1" "DONE" "c1" "e1"
        true false sampleStore []).store =
      (patchStatusHandler "" "Bearer dev-admin-token" "r1" "DONE" "c1" "e1"
        true true sampleStore []).store ∧
    (patchStatusHandler "" "Bearer dev-admin-token" "r1" "DONE" "c1" "e1"
        true false sampleStore []).queue = [] ∧
    lookupStore (patchStatusHandler "" "Bearer dev-admin-token" "r1" "DONE" "c1" "e1"
        true false sampleStore []).store ("REQ#" ++ "r1") =
      some { sampleRecord with status := "DONE", statusUpdatedAt := some "c1" } :=
  partial_failure_window "" "Bearer dev-admin-token" "r1" "DONE" "c1" "e1"
    sampleStore [] sampleRecord (by decide) (by decide) (by decide)

/-- C5.  Token gating: reading a stored request with the stored requester
token succeeds and returns the item; a non-matching (non-empty) token is
Forbidden; an empty/missing token is rejected as a validation error before
any store read is issued. -/
theorem token_gating (s : Store) (id wrong : String) (r : RequestRecord)
    (hr : lookupStore s ("REQ#" ++ id) = some r)
    (htok : r.requesterToken ≠ "")
    (hw : wrong ≠ r.requesterToken) (hw0 : wrong ≠ "") :
    getRequestHandler id r.requesterToken s =
      ⟨.ok ⟨id, r.title, r.status, r.createdAt⟩, true⟩ ∧
    getRequestHandler id wrong s = ⟨.forbidden, true⟩ ∧
    getRequestHandler id "" s = ⟨.badRequest, false⟩ := by
  refine ⟨?_, ?_, ?_⟩
  · simp [getRequestHandler, hr, htok]
  · simp [getRequestHandler, hr, hw0, Ne.symm hw]
  · simp [getRequestHandler]

/-- C5 witness on the sample store with its token, a wrong token, and an
empty token. -/
theorem token_gating_witness :
    getRequestHandler "r1" "tok" sampleStore =
      ⟨.ok ⟨"r1", "t1", "PENDING", "c0"⟩, true⟩ ∧
    getRequestHandler "r1" "bad" sampleStore = ⟨.forbidden, true⟩ ∧
    getRequestHandler "r1" "" sampleStore = ⟨.badRequest, false⟩ :=
  token_gating sampleStore "r1" "bad" sampleRecord
    (by decide) (by decide) (by decide) (by decide)

/-- C6.  Transition precondition checks are state-preserving: a wrong or
missing admin bearer credential yields Unauthorized, and (with a good
credential) a status outside the four enum values yields a validation
error; in both cases neither the store nor the queue is touched. -/
theorem transition_preconditions_state_preserving
    (adminTokenEnv authHeader id st ca eid : String) (reach sendOk : Bool)
    (s : Store) (q : List StatusChangedEvent) :
    (authHeader ≠ "Bearer " ++ adminExpected adminTokenEnv →
      patchStatusHandler adminTokenEnv authHeader id st ca eid reach sendOk s q =
        ⟨s, q, .unauthorized⟩) ∧
    (authHeader = "Bearer " ++ adminExpected adminTokenEnv → validStatus st = false →
      patchStatusHandler adminTokenEnv authHeader id st ca eid reach sendOk s q =
        ⟨s, q, .badRequest⟩) := by
  constructor
  · intro h
    simp [patchStatusHandler, h]
  · intro h1 h2
    simp [patchStatusHandler, h1, h2]

/-- C6 witness: a bad bearer token, and a good token with an invalid status,
each leave the sample store and an empty queue unchanged. -/
theorem transition_preconditions_witness :
    patchStatusHandler "" "Bearer nope" "r1" "DONE" "c1" "e1" true true
      sampleStore [] = ⟨sampleStore, [], .unauthorized⟩ ∧
    patchStatusHandler "" "Bearer dev-admin-token" "r1" "WAT" "c1" "e1" true true
      sampleStore [] = ⟨sampleStore, [], .badRequest⟩ :=
  ⟨(transition_preconditions_state_preserving "" "Bearer nope" "r1" "DONE" "c1" "e1"
      true true sampleStore []).1 (by decide),
   (transition_preconditions_state_preserving "" "Bearer dev-admin-token" "r1" "WAT"
      "c1" "e1" true true sampleStore []).2 (by decide) (by decide)⟩

/-- C7.  Unconstrained transitions accepted: for any existing request,
whatever its current status, a transition with a valid admin credential to
any of the four enum values succeeds — no state-machine ordering is
enforced. -/
theorem unconstrained_transitions (adminTokenEnv authHeader id st ca eid : String)
    (s : Store) (q : List StatusChangedEvent) (r : RequestRecord)
    (hauth : authHeader = "Bearer " ++ adminExpected adminTokenEnv)
    (hst : validStatus st = true)
    (hr : lookupStore s ("REQ#" ++ id) = some r) :
    (patchStatusHandler adminTokenEnv authHeader id st ca eid true true s q).result =
      PatchResult.ok ⟨id, st, ca, eid⟩ := by
  subst hauth
  simp [patchStatusHandler, hst, hr]

/-- C7 witness: a DONE record transitions back to PENDING successfully. -/
theorem unconstrained_transitions_witness :
    (patchStatusHandler "" "Bearer dev-admin-token" "r1" "PENDING" "c2" "e2"
        true true [("REQ#r1", { sampleRecord with status := "DONE" })] []).result =
      PatchResult.ok ⟨"r1", "PENDING", "c2", "e2"⟩ :=
  unconstrained_transitions "" "Bearer dev-admin-token" "r1" "PENDING" "c2" "e2"
    [("REQ#r1", { sampleRecord with status := "DONE" })] []
    { sampleRecord with status := "DONE" } (by decide) (by decide) (by decide)

theorem lookupStore_token_putStore (s : Store) (pk0 pk : String)
    (r r2 : RequestRecord) (hl : lookupStore s pk0 = some r)
    (ht : r2.requesterToken = r.requesterToken) :
    (lookupStore (putStore s pk0 r2) pk).map RequestRecord.requesterToken =
      (lookupStore s pk).map RequestRecord.requesterToken := by
  rw [lookupStore_putStore]
  by_cases h : pk0 = pk
  · subst h
    rw [if_pos rfl, hl]
    simp [ht]
  · rw [if_neg h]

theorem runOp_requesterToken (op : Op) (sq : Store × List StatusChangedEvent)
    (pk : String) :
    (lookupStore (runOp sq op).1 pk).map RequestRecord.requesterToken =
      (lookupStore sq.1 pk).map RequestRecord.requesterToken := by
  cases op with
  | patch a h i st ca e reach sendOk =>
      by_cases h1 : h = "Bearer " ++ adminExpected a
      · by_cases h2 : validStatus st = true
        · cases reach with
          | false => simp [runOp, patchStatusHandler, h1, h2]
          | true =>
              cases hlook : lookupStore sq.1 ("REQ#" ++ i) with
              | none => simp [runOp, patchStatusHandler, h1, h2, hlook]
              | some r =>
                  cases sendOk with
                  | true =>
                      simp only [runOp, patchStatusHandler, h1, h2, hlook,
                        if_true, if_pos rfl]
                      exact lookupStore_token_putStore sq.1 ("REQ#" ++ i) pk r _
                        hlook rfl
                  | false =>
                      simp only [runOp, patchStatusHandler, h1, h2, hlook,
                        if_true, if_pos rfl, Bool.false_eq_true, if_false]
                      exact lookupStore_token_putStore sq.1 ("REQ#" ++ i) pk r _
                        hlook rfl
        · simp [runOp, patchStatusHandler, h1, h2]
      · simp [runOp, patchStatusHandler, h1]
  | applyEvent ev now =>
      cases hlook : lookupStore sq.1 ("REQ#" ++ ev.requestId) with
      | none => simp [runOp, applyStatusEvent, applyUpdateItem, hlook]
      | some r =>
          by_cases hid : r.lastEventId = some ev.eventId
          · simp [runOp, applyStatusEvent, applyUpdateItem, hlook, hid]
          · simp only [runOp, applyStatusEvent, applyUpdateItem, hlook, hid,
              if_false]
            exact lookupStore_token_putStore sq.1 ("REQ#" ++ ev.requestId) pk r _
              hlook rfl

theorem runOps_requesterToken (ops : List Op) :
    ∀ (sq : Store × List StatusChangedEvent) (pk : String),
      (lookupStore (runOps ops sq).1 pk).map RequestRecord.requesterToken =
        (lookupStore sq.1 pk).map RequestRecord.requesterToken := by
  induction ops with
  | nil => intro sq pk; rfl
  | cons op rest ih =>
      intro sq pk
      have hstep : runOps (op :: rest) sq = runOps rest (runOp sq op) := rfl
      rw [hstep, ih, runOp_requesterToken]

/-- C8.  Requester-token invariant: the token is written once, by the
creation `PutItem`, and no later operation — any sequence of admin status
transitions and worker event applications, with any parameters and any
failure pattern — changes it: afterwards it still reads back as the value
set at creation. -/
theorem requesterToken_invariant (ops : List Op) (s0 : Store)
    (id title createdAt tok : String) (q : List StatusChangedEvent) :
    (lookupStore (runOps ops (createRequestPut s0 id title createdAt tok, q)).1
        ("REQ#" ++ id)).map RequestRecord.requesterToken = some tok := by
  rw [runOps_requesterToken]
  simp [createRequestPut, lookupStore_putStore]

/-- C9.  Deduplication compares only the most recent event: an event is
skipped exactly when its identifier equals the record's current
`lastEventId`, so after applying event A, then a distinct event B, a
replayed duplicate of A passes the conditional check and is appended again —
the history reads A, B, A with two entries carrying identifier A. -/
theorem dedup_compares_only_last :
    applyStatusEvent
        (applyStatusEvent (createRequestPut [] "r1" "t1" "c0" "tok")
          ⟨"A", "r1", "IN_PROGRESS", "ca1"⟩ "n1")
        ⟨"A", "r1", "IN_PROGRESS", "ca1"⟩ "n9" =
      applyStatusEvent (createRequestPut [] "r1" "t1" "c0" "tok")
        ⟨"A", "r1", "IN_PROGRESS", "ca1"⟩ "n1" ∧
    (lookupStore
        (applyStatusEvent
          (applyStatusEvent
            (applyStatusEvent (createRequestPut [] "r1" "t1" "c0" "tok")
              ⟨"A", "r1", "IN_PROGRESS", "ca1"⟩ "n1")
            ⟨"B", "r1", "DONE", "ca2"⟩ "n2")
          ⟨"A", "r1", "IN_PROGRESS", "ca1"⟩ "n3")
        ("REQ#" ++ "r1")).map
      (fun r2 => r2.statusHistory.map HistoryEntry.eventId) =
      some ["A", "B", "A"] := by
  refine ⟨by decide, by decide⟩

theorem patch_auth_pass_not_unauthorized (a h i st ca e : String)
    (reach sendOk : Bool) (s : Store) (q : List StatusChangedEvent)
    (hh : h = "Bearer " ++ adminExpected a) :
    (patchStatusHandler a h i st ca e reach sendOk s q).result ≠
      PatchResult.unauthorized := by
  subst hh
  by_cases h2 : validStatus st = true
  · cases reach with
    | false => simp [patchStatusHandler, h2]
    | true =>
        cases hlook : lookupStore s ("REQ#" ++ i) with
        | none => simp [patchStatusHandler, h2, hlook]
        | some r =>
            cases sendOk with
            | true => simp [patchStatusHandler, h2, hlook]
            | false => simp [patchStatusHandler, h2, hlook]
  · simp [patchStatusHandler, h2]

/-- C10.  Default admin credential: with `ADMIN_TOKEN` unset or empty, the
transition endpoint rejects as Unauthorized exactly the callers whose
Authorization header is not the bearer form of the hard-coded fallback
`dev-admin-token` — authorization is not refused outright. -/
theorem default_admin_credential (authHeader id st ca eid : String)
    (reach sendOk : Bool) (s : Store) (q : List StatusChangedEvent) :
    ((patchStatusHandler "" authHeader id st ca eid reach sendOk s q).result =
        PatchResult.unauthorized) ↔ authHeader ≠ "Bearer dev-admin-token" := by
  have hb : ("Bearer " ++ adminExpected "" : String) = "Bearer dev-admin-token" := by
    decide
  constructor
  · intro hres h
    exact patch_auth_pass_not_unauthorized "" authHeader id st ca eid reach sendOk
      s q (by rw [h, hb]) hres
  · intro h
    have hcond : ¬ authHeader = "Bearer " ++ adminExpected "" := by
      rw [hb]; exact h
    simp [patchStatusHandler, hcond]

end RequestTracker
